import Mathlib

/-!
# Checkout workflow of the 9065-Backend e-commerce server

Shallow embedding of the `POST /cart/checkout` route handler
(`src/routes/carts.ts`, the `cartRoutes.post("/checkout", ...)` handler) and
of the database tables it touches (`products`, `orders`, `order_items`,
`payment_methods`, declared in `src/db/schema.ts`).

Conventions of the embedding:

* Monetary values (`decimal(10,2)` columns, JSON numbers in the request) are
  modelled as exact rationals (`Rat`); writing a value into a `decimal(10,2)`
  column rounds it to 2 fraction digits (`round2`), which is what Postgres
  does when casting to `numeric(10,2)`.
* `stock_quantity` is an `integer` column with no CHECK constraint, so it is
  modelled as `Int` (it can in principle go negative).
* The snowflake id generator (`generator.nextId()`) is modelled as a `Nat`
  counter threaded through the computation; successive calls return
  successive values.  Existing rows were created with earlier (smaller) ids.
* `db.transaction` runs its body against the current state; if the body
  throws, every write of the body is rolled back and the error is rethrown
  (the route's catch block then answers HTTP 500).  This is modelled by
  running the body in an `Except` monad and discarding the body state on
  error.
* The confirmation e-mail (`resend.emails.send`, which the handler awaits
  INSIDE the transaction callback) is an external effect; its outcome is a
  parameter of the embedding: it can deliver, return an error value (the
  `{data, error}` result of the SDK, which the handler destructures and
  ignores), or throw (network failure).
-/

namespace Backend

/-- A row of the `products` table (the columns read or written by checkout). -/
structure Product where
  productId : Nat
  stockQuantity : Int
  basePrice : Rat
  deriving Repr, DecidableEq

/-- A row of the `payment_methods` table. -/
structure PaymentMethodRow where
  paymentId : Nat
  userId : Nat
  cardType : String
  lastFour : String
  holderName : String
  expiryDate : String
  deriving Repr, DecidableEq

/-- A row of the `orders` table (the columns written by checkout). -/
structure OrderRow where
  orderId : Nat
  userId : Nat
  shippingAddressId : Nat
  billingAddressId : Nat
  paymentMethodId : Nat
  totalAmount : Rat
  status : String
  deriving Repr, DecidableEq

/-- A row of the `order_items` table. -/
structure OrderItemRow where
  orderItemId : Nat
  orderId : Nat
  productId : Nat
  quantity : Int
  unitPrice : Rat
  subtotal : Rat
  deriving Repr, DecidableEq

/-- The persisted state touched by the checkout route: the four tables. -/
structure DBState where
  products : List Product
  orders : List OrderRow
  orderItems : List OrderItemRow
  paymentMethods : List PaymentMethodRow
  deriving Repr, DecidableEq

/-- One element of the `products` array of the checkout request body:
`{productId, quantity, basePrice}`. -/
structure LineRequest where
  productId : Nat
  quantity : Int
  basePrice : Rat
  deriving Repr, DecidableEq

/-- The `paymentMethod` field of the request body.  `typeof paymentMethod
=== "object"` is true exactly for the `card` constructor; an identifier
(JSON number or string) or an absent field are both non-objects. -/
inductive PaymentMethodInput where
  | card (cardType lastFour holderName expiryDate : String)
  | idRef (v : Nat)
  | absent
  deriving Repr, DecidableEq

/-- The checkout request body.  `Option` models presence of a field:
`none` is JS `undefined`, which is falsy in `!products || !userId ||
!addressId`. -/
structure CheckoutRequest where
  products : Option (List LineRequest)
  paymentMethod : PaymentMethodInput
  userId : Option Nat
  addressId : Option Nat
  email : Option String
  deriving Repr, DecidableEq

/-- Outcome of the external `resend.emails.send` call: delivered, returned
an error value in the `{data, error}` result, or threw an exception. -/
inductive EmailOutcome where
  | delivered
  | errorResult
  | threw
  deriving Repr, DecidableEq

/-- The errors that can be thrown inside the transaction body. -/
inductive CheckoutError where
  | insufficientStock (productId : Nat)
  | productNotFound
  | emailThrew
  deriving Repr, DecidableEq

/-- One element of the `issues` array of an error response body. -/
structure Issue where
  code : String
  message : String
  deriving Repr, DecidableEq

/-- The HTTP response of the checkout route: 201 with the new order id,
400 with `{error: {issues}}`, or 500 with `{error: {issues}}`. -/
inductive CheckoutResponse where
  | created (orderId : Nat)
  | badRequest (issues : List Issue)
  | serverError (e : CheckoutError)
  deriving Repr, DecidableEq

/-- `true` exactly on the HTTP 201 response. -/
def CheckoutResponse.isSuccess : CheckoutResponse → Bool
  | .created _ => true
  | _ => false

/-- The result of one invocation of the route handler: the persisted state
after the call returned, the HTTP response, and the id-generator counter. -/
structure CheckoutOutcome where
  state : DBState
  response : CheckoutResponse
  gen : Nat
  deriving Repr, DecidableEq

/-- Rounding of an exact rational to the nearest integer, half away from
zero, which is what Postgres does when casting a value into a `numeric`
column.  For `x = n / d` in lowest terms with `d > 0` this is
`sign x * ((2 * |n| + d) / (2 * d))` with truncating natural division. -/
def roundHalfAway (x : Rat) : Int :=
  if 0 ≤ x.num then ((2 * x.num.toNat + x.den) / (2 * x.den) : Nat)
  else -(((2 * (-x.num).toNat + x.den) / (2 * x.den) : Nat) : Int)

/-- Rounding of a value written into a `decimal(10,2)` column: Postgres
rounds to 2 fraction digits, half away from zero. -/
def round2 (x : Rat) : Rat := (roundHalfAway (x * 100) : Rat) / 100

/-- `SELECT ... FROM products WHERE product_id = pid` followed by taking the
first row (`currentStock[0]`). -/
def findProduct (ps : List Product) (pid : Nat) : Option Product :=
  ps.find? (fun p => p.productId == pid)

/-- `SELECT ... FROM orders WHERE order_id = oid`, first row. -/
def findOrder (s : DBState) (oid : Nat) : Option OrderRow :=
  s.orders.find? (fun o => o.orderId == oid)

/-- `UPDATE products SET stock_quantity = stock_quantity - q WHERE
product_id = pid` (the unconditional decrement of the checkout handler). -/
def updateStock (ps : List Product) (pid : Nat) (q : Int) : List Product :=
  ps.map (fun p =>
    if p.productId == pid then { p with stockQuantity := p.stockQuantity - q } else p)

/-!
### Binary64 model of the total computation

The handler computes `totalPrice`, `tax` and `totalPrice + tax` with
JavaScript numbers, i.e. IEEE-754 binary64 doubles, and that rounding is
observable in the persisted `total_amount`.  Every double arising here is
`m · 2^e` with `|m| < 2^53` and `e ≥ -120`, so its exact value times
`2^120` is an integer; the model therefore represents each double by that
scaled integer and implements the binary64 rounding (round to nearest,
ties to even) with pure `Nat`/`Int` arithmetic. -/

/-- Halving loop of `bitLen` for arguments below `2^32` (fuel-taking so
the kernel can evaluate it). -/
def bitLenSmall : Nat → Nat → Nat → Nat
  | 0, _, acc => acc
  | _ + 1, 0, acc => acc
  | fuel + 1, n + 1, acc => bitLenSmall fuel ((n + 1) / 2) (acc + 1)

/-- Strips 32 bits per step, then finishes with `bitLenSmall`. -/
def bitLenAux : Nat → Nat → Nat → Nat
  | 0, _, acc => acc
  | fuel + 1, n, acc =>
    if n < 4294967296 then bitLenSmall 32 n acc
    else bitLenAux fuel (n / 4294967296) (acc + 32)

/-- Bit length: `bitLen n = ⌊log2 n⌋ + 1` for `0 < n < 2^1024`. -/
def bitLen (n : Nat) : Nat := bitLenAux 32 n 0

/-- `2 ^ k` by repeated squaring (fuel-taking; valid for `k < 2^16`). -/
def pow2 : Nat → Nat → Nat
  | 0, _ => 1
  | _ + 1, 0 => 1
  | fuel + 1, k =>
    let h := pow2 fuel (k / 2)
    if k % 2 = 0 then h * h else 2 * h * h

/-- Whether `2 ^ c ≤ n / d` for positive naturals `n`, `d`. -/
def pow2LeRat (n d : Nat) (c : Int) : Bool :=
  match c with
  | .ofNat k => d * pow2 16 k ≤ n
  | .negSucc k => d ≤ n * pow2 16 (k + 1)

/-- Rounds the positive rational `mn / md` to a natural number, ties to
even — the significand rounding of binary64. -/
def roundMant (mn md : Nat) : Nat :=
  let f := mn / md
  let r := mn % md
  if 2 * r < md then f
  else if md < 2 * r then f + 1
  else if f % 2 = 0 then f else f + 1

/-- The binary64 double nearest the exact rational `x` (ties to even),
returned as the double's exact value scaled by `2^120`.  This is the value
the JavaScript engine holds for a JSON number literal `x` of the request
body.  Valid throughout the magnitudes that arise here (far from overflow
and subnormals). -/
def flLit (x : Rat) : Int :=
  if x.num = 0 then 0
  else
    let n := x.num.natAbs
    let d := x.den
    let c : Int := (bitLen n : Int) - (bitLen d : Int)
    let e : Int := if pow2LeRat n d c then c else c - 1
    let p : Int := e - 52
    let md : Nat × Nat :=
      match p with
      | .ofNat k => (n, d * pow2 16 k)
      | .negSucc k => (n * pow2 16 (k + 1), d)
    let mi := roundMant md.1 md.2
    let mag : Int :=
      match p + 120 with
      | .ofNat k => (mi * pow2 16 k : Nat)
      | .negSucc _ => 0
    if x.num < 0 then -mag else mag

/-- Binary64 rounding of an exact intermediate result `v · 2^-s` (`v` an
integer, `s` the scale of the exact product or sum), returned scaled by
`2^120`: this is the rounding JavaScript performs on every `+` and `*`. -/
def flScaled (v : Int) (s : Nat) : Int :=
  if v = 0 then 0
  else
    let n := v.natAbs
    let bl := bitLen n
    let mi : Nat :=
      match (bl : Int) - 53 with
      | .ofNat k => roundMant n (pow2 16 k)
      | .negSucc k => n * pow2 16 (k + 1)
    let mag : Int :=
      match (bl : Int) - 53 - (s : Int) + 120 with
      | .ofNat k => (mi * pow2 16 k : Nat)
      | .negSucc _ => 0
    if v < 0 then -mag else mag

/-- The double of the literal `0.13` in `totalPrice * 0.13`. -/
def point13S : Int := flLit (13 / 100)

/-- The first loop of the transaction body with binary64 semantics:
`totalPrice += Number(product.basePrice) * product.quantity`, one rounding
for the product and one for the running sum per line (scaled by `2^120`;
the integral quantity is exact). -/
def totalPriceFpS (lines : List LineRequest) : Int :=
  lines.foldl (fun acc l => flScaled (acc + flScaled (flLit l.basePrice * l.quantity) 120) 120) 0

/-- `let tax = Number(totalPrice * 0.13)` with binary64 semantics
(the exact product has scale `2^240`). -/
def taxFpS (lines : List LineRequest) : Int :=
  flScaled (totalPriceFpS lines * point13S) 240

/-- `totalPrice + tax` as the handler computes it for the `total_amount`
column, with binary64 semantics (scaled by `2^120`). -/
def totalAmountFpS (lines : List LineRequest) : Int :=
  flScaled (totalPriceFpS lines + taxFpS lines) 120

/-- The `numeric(10,2)` cast applied to a scaled-by-`2^120` double when it
is written to the `total_amount` column: whole cents, half away from
zero. -/
def round2S (v : Int) : Int :=
  if 0 ≤ v then (((2 * (100 * v.toNat) + pow2 16 120) / (2 * pow2 16 120) : Nat) : Int)
  else -(((2 * (100 * (-v).toNat) + pow2 16 120) / (2 * pow2 16 120) : Nat) : Int)

/-- The stock-check loop: for each line in input order, read the product's
current stock (`currentStock[0].stockQuantity`; reading the field of an
absent row throws a TypeError, modelled `productNotFound`) and throw
`Insufficient stock for product ID ...` when it is below the requested
quantity.  All checks read the same pre-decrement table, because the
decrement loop only runs after this loop finishes. -/
def checkStock (ps : List Product) : List LineRequest → Except CheckoutError Unit
  | [] => .ok ()
  | l :: rest =>
    match findProduct ps l.productId with
    | none => .error .productNotFound
    | some p =>
      if p.stockQuantity < l.quantity then .error (.insufficientStock l.productId)
      else checkStock ps rest

/-- The decrement loop: one unconditional `UPDATE` per line, in input
order (a product named by several lines is decremented once per line). -/
def decrementAll (ps : List Product) (lines : List LineRequest) : List Product :=
  lines.foldl (fun acc l => updateStock acc l.productId l.quantity) ps

/-- The payment-method step: when `typeof paymentMethod === "object"`, a
fresh id is generated and a `payment_methods` row is inserted; otherwise
`paymentMethodId = 0` is used and nothing is inserted.  Returns the state,
the resolved `paymentMethodId`, and the next generator value. -/
def paymentStep (s : DBState) (gen : Nat) (pm : PaymentMethodInput) (uid : Nat) :
    DBState × Nat × Nat :=
  match pm with
  | .card ct lf hn ed =>
    ({ s with paymentMethods := s.paymentMethods ++
        [{ paymentId := gen, userId := uid, cardType := ct, lastFour := lf,
           holderName := hn, expiryDate := ed }] }, gen, gen + 1)
  | _ => (s, 0, gen)

/-- The `orders` row inserted by checkout: both address columns get the one
supplied `addressId`, `total_amount` gets the binary64 value
`Number(totalPrice + tax)` rounded to cents by the `decimal(10,2)` column,
and `status` is the literal `"pending"`. -/
def mkOrder (oid uid aid pmId : Nat) (lines : List LineRequest) : OrderRow :=
  { orderId := oid, userId := uid, shippingAddressId := aid,
    billingAddressId := aid, paymentMethodId := pmId,
    totalAmount := (round2S (totalAmountFpS lines) : Rat) / 100,
    status := "pending" }

/-- The `order_items` rows inserted by the item loop, one per line in input
order, each with a fresh id: `unit_price` snapshots the caller-supplied
`basePrice` and `subtotal` gets `Number(basePrice) * quantity`, both rounded
by their `decimal(10,2)` columns. -/
def mkItems (gen oid : Nat) : List LineRequest → List OrderItemRow
  | [] => []
  | l :: rest =>
    { orderItemId := gen, orderId := oid, productId := l.productId,
      quantity := l.quantity, unitPrice := round2 l.basePrice,
      subtotal := round2 (l.basePrice * (l.quantity : Rat)) } :: mkItems (gen + 1) oid rest

/-- The body of `db.transaction` in source order: compute totals, resolve
the payment method, run the stock-check loop, run the decrement loop,
insert the order, insert the order items, send the confirmation e-mail
(still inside the transaction).  Returns the body's final state, the new
order id and the next generator value, or the thrown error. -/
def transactionBody (s : DBState) (gen : Nat) (lines : List LineRequest)
    (pm : PaymentMethodInput) (uid aid : Nat) (em : EmailOutcome) :
    Except CheckoutError (DBState × Nat × Nat) :=
  let ps := paymentStep s gen pm uid
  let s1 := ps.1
  let pmId := ps.2.1
  let g1 := ps.2.2
  match checkStock s1.products lines with
  | .error e => .error e
  | .ok () =>
    let s2 := { s1 with products := decrementAll s1.products lines }
    let s3 := { s2 with orders := s2.orders ++ [mkOrder g1 uid aid pmId lines] }
    let s4 := { s3 with orderItems := s3.orderItems ++ mkItems (g1 + 1) g1 lines }
    match em with
    | .threw => .error .emailThrew
    | _ => .ok (s4, g1, g1 + 1 + lines.length)

/-- The issues list of the HTTP 400 answer for missing required fields. -/
def missingFieldsIssues : List Issue :=
  [{ code := "invalid_request",
     message := "Missing required fields: products, paymentMethod, userId, or addressId" }]

/-- The `message` string of the 500 answer built from a thrown error. -/
def errMessage : CheckoutError → String
  | .insufficientStock pid => "Insufficient stock for product ID " ++ toString pid
  | .productNotFound => "Cannot read properties of undefined"
  | .emailThrew => "Failed to send email"

/-- The whole `POST /cart/checkout` handler: the required-field guard
answers 400 before touching the store; otherwise the transaction body runs,
a thrown error rolls every write back and the catch block answers 500, and
on success the handler answers 201 with the new order id. -/
def checkout (s : DBState) (gen : Nat) (req : CheckoutRequest) (em : EmailOutcome) :
    CheckoutOutcome :=
  match req.products, req.userId, req.addressId with
  | some lines, some uid, some aid =>
    match transactionBody s gen lines req.paymentMethod uid aid em with
    | .ok (s4, oid, g2) => { state := s4, response := .created oid, gen := g2 }
    | .error e => { state := s, response := .serverError e, gen := gen }
  | _, _, _ => { state := s, response := .badRequest missingFieldsIssues, gen := gen }

/-- Interleaving of the stock phases of two concurrent checkout transactions
on the same table under read committed, in the schedule where both run the
stock-check loop before either runs its decrement loop: each check loop
reads the stock committed before either decrement, and the two decrement
loops then both apply (the second transaction's `UPDATE` waits for the
first's row lock and then re-reads the committed row).  A transaction whose
check throws aborts and performs no decrement.  Returns whether each
transaction succeeded and the final committed `products` table. -/
def concurrentStockPhases (ps : List Product) (l1 l2 : LineRequest) :
    Bool × Bool × List Product :=
  let ok1 := match checkStock ps [l1] with | .ok _ => true | .error _ => false
  let ok2 := match checkStock ps [l2] with | .ok _ => true | .error _ => false
  let ps1 := if ok1 then decrementAll ps [l1] else ps
  let ps2 := if ok2 then decrementAll ps1 [l2] else ps1
  (ok1, ok2, ps2)

/-- The total amount exactly as the spec words it:
`round(Σ(line.unitPrice × line.quantity) × 1.13, 2)`. -/
def specTotalAmount (lines : List LineRequest) : Rat :=
  round2 ((lines.map (fun l => l.basePrice * (l.quantity : Rat))).sum * (113 / 100))

/-- Spec-side selector: the product id of the first line in input order
whose requested quantity exceeds the product's current stock (`none` when
every line is covered; also `none` past a line whose product is missing,
a case the insufficient-stock claim excludes). -/
def firstInsufficient (ps : List Product) : List LineRequest → Option Nat
  | [] => none
  | l :: rest =>
    match findProduct ps l.productId with
    | none => none
    | some p =>
      if p.stockQuantity < l.quantity then some l.productId
      else firstInsufficient ps rest

/-- Total quantity the request asks for a given product across all its
lines. -/
def requestedQty (lines : List LineRequest) (pid : Nat) : Int :=
  ((lines.filter (fun l => l.productId == pid)).map (fun l => l.quantity)).sum

/-! ## Concrete states and requests used by the claim theorems -/

/-- A store holding one product with id 1, stock 5, base price 100.00. -/
def oneProductState : DBState :=
  { products := [{ productId := 1, stockQuantity := 5, basePrice := 100 }],
    orders := [], orderItems := [], paymentMethods := [] }

/-- A request with two duplicate lines, each asking 5 units of product 1. -/
def duplicateLinesReq : CheckoutRequest :=
  { products := some [⟨1, 5, 100⟩, ⟨1, 5, 100⟩], paymentMethod := .idRef 42,
    userId := some 9, addressId := some 3, email := some "x@y.com" }

/-- A request for 2 units of product 1, paying with an existing
payment-method identifier 42. -/
def existingPaymentReq : CheckoutRequest :=
  { products := some [⟨1, 2, 100⟩], paymentMethod := .idRef 42,
    userId := some 9, addressId := some 3, email := some "x@y.com" }

/-- A fully valid request: 2 units of product 1, inline card details. -/
def inlineCardReq : CheckoutRequest :=
  { products := some [⟨1, 2, 100⟩],
    paymentMethod := .card "Visa" "1234" "Alice" "12/27",
    userId := some 9, addressId := some 3, email := some "x@y.com" }

/-- A request asking −3 units of product 1. -/
def negativeQtyReq : CheckoutRequest :=
  { products := some [⟨1, -3, 100⟩], paymentMethod := .idRef 42,
    userId := some 9, addressId := some 3, email := some "x@y.com" }

/-- The lines of the cart on which the binary64 total computation and the
exact decimal formula disagree: subtotal exactly 7278.50, whose exact
total 7278.50 × 1.13 = 8224.705 sits on a half-cent boundary, while the
double evaluation lands just below it at 8224.704999999998. -/
def ceLines : List LineRequest :=
  [⟨1, 2, 43606/100⟩, ⟨2, 5, 64686/100⟩, ⟨3, 7, 39690/100⟩, ⟨4, 1, 39378/100⟩]

/-- A store stocking the four products of `ceLines`. -/
def ceState : DBState :=
  { products := [⟨1, 10, 43606/100⟩, ⟨2, 10, 64686/100⟩,
                 ⟨3, 10, 39690/100⟩, ⟨4, 10, 39378/100⟩],
    orders := [], orderItems := [], paymentMethods := [] }

/-- The checkout request for `ceLines`. -/
def ceReq : CheckoutRequest :=
  { products := some ceLines, paymentMethod := .idRef 42,
    userId := some 9, addressId := some 3, email := some "x@y.com" }

/-- A request whose `products` field is missing. -/
def missingProductsReq : CheckoutRequest :=
  { products := none, paymentMethod := .card "Visa" "1234" "Alice" "12/27",
    userId := some 9, addressId := some 3, email := some "x@y.com" }

/-! ## Helper lemmas about the embedding -/

theorem paymentStep_products (s : DBState) (gen : Nat) (pm : PaymentMethodInput) (uid : Nat) :
    (paymentStep s gen pm uid).1.products = s.products := by
  cases pm <;> rfl

theorem paymentStep_orders (s : DBState) (gen : Nat) (pm : PaymentMethodInput) (uid : Nat) :
    (paymentStep s gen pm uid).1.orders = s.orders := by
  cases pm <;> rfl

theorem paymentStep_orderItems (s : DBState) (gen : Nat) (pm : PaymentMethodInput) (uid : Nat) :
    (paymentStep s gen pm uid).1.orderItems = s.orderItems := by
  cases pm <;> rfl

theorem paymentStep_gen_le (s : DBState) (gen : Nat) (pm : PaymentMethodInput) (uid : Nat) :
    gen ≤ (paymentStep s gen pm uid).2.2 := by
  cases pm <;> simp [paymentStep]

/-- Unfolding of a successful checkout: when the stock checks pass and the
e-mail call does not throw, the handler commits the payment-method write,
the decremented stock, the order and its items, and answers 201. -/
theorem checkout_ok (s : DBState) (gen : Nat) (lines : List LineRequest)
    (pm : PaymentMethodInput) (uid aid : Nat) (email : Option String)
    (em : EmailOutcome) (s1 : DBState) (pmId g1 : Nat)
    (hps : paymentStep s gen pm uid = (s1, pmId, g1))
    (hchk : checkStock s1.products lines = Except.ok ())
    (hem : em ≠ EmailOutcome.threw) :
    checkout s gen { products := some lines, paymentMethod := pm, userId := some uid,
                     addressId := some aid, email := email } em =
      { state := { products := decrementAll s1.products lines,
                   orders := s1.orders ++ [mkOrder g1 uid aid pmId lines],
                   orderItems := s1.orderItems ++ mkItems (g1 + 1) g1 lines,
                   paymentMethods := s1.paymentMethods },
        response := .created g1,
        gen := g1 + 1 + lines.length } := by
  cases em with
  | threw => exact absurd rfl hem
  | delivered => simp only [checkout, transactionBody, hps]; rw [hchk]
  | errorResult => simp only [checkout, transactionBody, hps]; rw [hchk]

/-- Inversion of a successful checkout: a 201 answer means the stock checks
passed on the pre-call products table, the e-mail call did not throw, and
the returned order id is the generator value after the payment step. -/
theorem checkout_created_inv (s : DBState) (gen : Nat) (lines : List LineRequest)
    (pm : PaymentMethodInput) (uid aid : Nat) (email : Option String)
    (em : EmailOutcome) (oid : Nat)
    (h : (checkout s gen { products := some lines, paymentMethod := pm,
                           userId := some uid, addressId := some aid,
                           email := email } em).response = .created oid) :
    checkStock s.products lines = Except.ok () ∧ em ≠ EmailOutcome.threw ∧
      oid = (paymentStep s gen pm uid).2.2 := by
  have hp := paymentStep_products s gen pm uid
  simp only [checkout, transactionBody] at h
  cases hchk : checkStock (paymentStep s gen pm uid).1.products lines with
  | error e => rw [hchk] at h; simp at h
  | ok u =>
    cases u
    rw [hchk] at h
    rw [hp] at hchk
    cases em with
    | threw => simp at h
    | delivered => simp at h; exact ⟨hchk, by simp, h.symm⟩
    | errorResult => simp at h; exact ⟨hchk, by simp, h.symm⟩

theorem find?_append_of_none {α : Type} (p : α → Bool) (l1 l2 : List α)
    (h : ∀ x ∈ l1, p x = false) : (l1 ++ l2).find? p = l2.find? p := by
  induction l1 with
  | nil => rfl
  | cons a l ih =>
    simp only [List.cons_append, List.find?]
    rw [h a (by simp)]
    exact ih (fun x hx => h x (by simp [hx]))

theorem filter_eq_nil_of_none {α : Type} (p : α → Bool) (l : List α)
    (h : ∀ x ∈ l, p x = false) : l.filter p = [] := by
  induction l with
  | nil => rfl
  | cons a l ih =>
    simp only [List.filter]
    rw [h a (by simp)]
    exact ih (fun x hx => h x (by simp [hx]))

theorem roundHalfAway_den_one (y : Rat) (h : y.den = 1) : roundHalfAway y = y.num := by
  unfold roundHalfAway
  rw [h]
  simp only [Nat.mul_one]
  split
  · rename_i h0
    have h1 : (2 * y.num.toNat + 1) / 2 = y.num.toNat := by omega
    rw [h1, Int.toNat_of_nonneg h0]
  · rename_i h0
    push_neg at h0
    have h1 : (2 * (-y.num).toNat + 1) / 2 = (-y.num).toNat := by omega
    rw [h1]
    have h2 : (((-y.num).toNat : Int)) = -y.num := Int.toNat_of_nonneg (by omega)
    rw [h2]
    omega

/-- A value that is a whole number of cents is unchanged by the
`decimal(10,2)` column rounding. -/
theorem round2_den_one (x : Rat) (h : (x * 100).den = 1) : round2 x = x := by
  unfold round2
  rw [roundHalfAway_den_one _ h]
  rw [(Rat.den_eq_one_iff _).mp h]
  field_simp

theorem den_one_mul_intCast (y : Rat) (q : Int) (h : y.den = 1) :
    (y * (q : Rat)).den = 1 := by
  rw [← (Rat.den_eq_one_iff _).mp h, ← Int.cast_mul]
  exact Rat.intCast_den _

/-- A whole number of cents times an integer quantity is again a whole
number of cents. -/
theorem money_mul_qty_den (x : Rat) (q : Int) (h : (x * 100).den = 1) :
    ((x * (q : Rat)) * 100).den = 1 := by
  have h1 : (x * (q : Rat)) * 100 = (x * 100) * (q : Rat) := by ring
  rw [h1]
  exact den_one_mul_intCast _ _ h

theorem mkItems_orderId (g oid : Nat) (lines : List LineRequest) :
    ∀ it ∈ mkItems g oid lines, it.orderId = oid := by
  induction lines generalizing g with
  | nil => intro it h; cases h
  | cons l rest ih =>
    intro it h
    rcases List.mem_cons.mp h with rfl | h
    · rfl
    · exact ih (g + 1) it h

theorem mkItems_filter (g oid : Nat) (lines : List LineRequest) :
    (mkItems g oid lines).filter (fun it => it.orderId == oid) = mkItems g oid lines := by
  rw [List.filter_eq_self]
  intro it h
  simp [mkItems_orderId g oid lines it h]

theorem mkItems_length (g oid : Nat) (lines : List LineRequest) :
    (mkItems g oid lines).length = lines.length := by
  induction lines generalizing g with
  | nil => rfl
  | cons l rest ih => simp [mkItems, ih]

/-- The rows the item loop inserts, projected to their payload columns:
one row per line in input order, snapshotting product, quantity, rounded
unit price and rounded line total. -/
theorem mkItems_map (g oid : Nat) (lines : List LineRequest) :
    (mkItems g oid lines).map (fun it => (it.productId, it.quantity, it.unitPrice, it.subtotal)) =
      lines.map (fun l => (l.productId, l.quantity, round2 l.basePrice,
        round2 (l.basePrice * (l.quantity : Rat)))) := by
  induction lines generalizing g with
  | nil => rfl
  | cons l rest ih => simp [mkItems, ih]

/-- Every line is represented among the inserted item rows with its
product and its (possibly non-positive) quantity. -/
theorem mkItems_mem (g oid : Nat) (lines : List LineRequest) (l : LineRequest)
    (hmem : l ∈ lines) :
    ∃ it ∈ mkItems g oid lines, it.productId = l.productId ∧ it.quantity = l.quantity := by
  induction lines generalizing g with
  | nil => cases hmem
  | cons a rest ih =>
    rcases List.mem_cons.mp hmem with rfl | hmem
    · refine ⟨{ orderItemId := g, orderId := oid, productId := l.productId,
                quantity := l.quantity, unitPrice := round2 l.basePrice,
                subtotal := round2 (l.basePrice * (l.quantity : Rat)) }, ?_, rfl, rfl⟩
      simp [mkItems]
    · obtain ⟨it, h1, h2⟩ := ih (g + 1) hmem
      exact ⟨it, by simp [mkItems, h1], h2⟩

theorem find?_map_of_pred {α : Type} (f : α → α) (p : α → Bool) (l : List α)
    (h : ∀ x, p (f x) = p x) : (l.map f).find? p = (l.find? p).map f := by
  induction l with
  | nil => rfl
  | cons a l ih =>
    simp only [List.map_cons, List.find?, h a]
    cases hpa : p a <;> simp [ih]

/-- One unconditional `UPDATE` only rewrites the stock of the rows whose id
matches, as seen through a later `SELECT` of any id. -/
theorem findProduct_updateStock (ps : List Product) (pid : Nat) (q : Int) (pid2 : Nat) :
    findProduct (updateStock ps pid q) pid2 =
      (findProduct ps pid2).map (fun p =>
        if p.productId == pid then { p with stockQuantity := p.stockQuantity - q }
        else p) := by
  unfold findProduct updateStock
  exact find?_map_of_pred _ _ ps (fun x => by split <;> rfl)

theorem requestedQty_cons (l : LineRequest) (rest : List LineRequest) (pid : Nat) :
    requestedQty (l :: rest) pid =
      (if l.productId == pid then l.quantity else 0) + requestedQty rest pid := by
  simp only [requestedQty, List.filter_cons]
  split <;> simp [*]

/-- The decrement loop lowers each product's stock by the total quantity
requested for it across all lines (each duplicate line decrements once
more). -/
theorem findProduct_decrementAll (ps : List Product) (lines : List LineRequest) (pid : Nat) :
    findProduct (decrementAll ps lines) pid =
      (findProduct ps pid).map (fun p =>
        { p with stockQuantity := p.stockQuantity - requestedQty lines pid }) := by
  induction lines generalizing ps with
  | nil =>
    show findProduct ps pid = _
    cases findProduct ps pid <;> simp [requestedQty]
  | cons l rest ih =>
    show findProduct (decrementAll (updateStock ps l.productId l.quantity) rest) pid = _
    rw [ih (updateStock ps l.productId l.quantity), findProduct_updateStock,
      requestedQty_cons]
    cases hfp : findProduct ps pid with
    | none => rfl
    | some p =>
      have hpid : p.productId = pid := by
        have hb := List.find?_some hfp
        simpa using hb
      by_cases hc : l.productId = pid
      · simp [hpid, hc, Product.mk.injEq]
        omega
      · have hc2 : ¬pid = l.productId := fun hh => hc hh.symm
        simp [hpid, hc, hc2, Product.mk.injEq]

/-- When every requested product exists, the check loop fails with
`insufficientStock` of exactly the first insufficient line in input order,
and passes when there is none. -/
theorem checkStock_eq_firstInsufficient (ps : List Product) (lines : List LineRequest)
    (hall : ∀ l ∈ lines, (findProduct ps l.productId).isSome) :
    checkStock ps lines =
      match firstInsufficient ps lines with
      | some pid => .error (.insufficientStock pid)
      | none => .ok () := by
  induction lines with
  | nil => rfl
  | cons l rest ih =>
    obtain ⟨p, hp⟩ := Option.isSome_iff_exists.mp (hall l (by simp))
    simp only [checkStock, firstInsufficient, hp]
    split
    · rfl
    · exact ih (fun x hx => hall x (by simp [hx]))

/-! ## Claim theorems -/

/-- **C1.** Every checkout invocation that does not answer HTTP 201 — the
required-field guard, a missing product row, an insufficient-stock throw,
or an e-mail exception inside the transaction — leaves the persisted state
(products, orders, order items, payment methods) exactly as it was before
the call: every write happens through the transaction handle and a thrown
error rolls all of them back. -/
theorem failed_checkout_preserves_state (s : DBState) (gen : Nat)
    (req : CheckoutRequest) (em : EmailOutcome)
    (h : (checkout s gen req em).response.isSuccess = false) :
    (checkout s gen req em).state = s := by
  rcases req with ⟨ps, pm, u, a, e⟩
  cases ps <;> cases u <;> cases a <;> simp only [checkout] at h ⊢
  all_goals first
  | rfl
  | (rename_i lines uid aid
     cases htb : transactionBody s gen lines pm uid aid em <;>
       simp [htb, CheckoutResponse.isSuccess] at h ⊢)

/-- Witness for C1 at a concrete input: a checkout of 7 units when only 5
are in stock fails and leaves the store unchanged. -/
theorem failed_checkout_preserves_state_witness :
    ((checkout oneProductState 10
        { products := some [⟨1, 7, 100⟩], paymentMethod := .idRef 42,
          userId := some 9, addressId := some 3,
          email := some "x@y.com" } .delivered).response.isSuccess = false) ∧
    (checkout oneProductState 10
        { products := some [⟨1, 7, 100⟩], paymentMethod := .idRef 42,
          userId := some 9, addressId := some 3,
          email := some "x@y.com" } .delivered).state = oneProductState :=
  ⟨by decide,
   failed_checkout_preserves_state oneProductState 10
     { products := some [⟨1, 7, 100⟩], paymentMethod := .idRef 42,
       userId := some 9, addressId := some 3, email := some "x@y.com" }
     .delivered (by decide)⟩

/-- **C9.** A checkout request missing `products`, `userId` or `addressId`
is answered with HTTP 400 carrying `{error: {issues: [{code, message}]}}`
and no persisted state is touched. -/
theorem missing_fields_rejected (s : DBState) (gen : Nat)
    (req : CheckoutRequest) (em : EmailOutcome)
    (h : req.products = none ∨ req.userId = none ∨ req.addressId = none) :
    (checkout s gen req em).response = .badRequest missingFieldsIssues ∧
    (checkout s gen req em).state = s := by
  rcases req with ⟨ps, pm, u, a, e⟩
  cases ps <;> cases u <;> cases a <;>
    first
    | exact ⟨rfl, rfl⟩
    | simp at h

/-- Witness for C9: a request without `products` gets the 400 issue list
and the store is untouched. -/
theorem missing_fields_rejected_witness :
    missingProductsReq.products = none ∧
    ((checkout oneProductState 10 missingProductsReq .delivered).response =
        .badRequest missingFieldsIssues ∧
      (checkout oneProductState 10 missingProductsReq .delivered).state =
        oneProductState) :=
  ⟨rfl, missing_fields_rejected oneProductState 10 missingProductsReq .delivered
    (Or.inl rfl)⟩

/-- **C4.** The code violates the stock non-negativity invariant: with
product 1 at stock 5, a checkout whose two duplicate lines each request 5
units passes the check loop (both checks read the pre-decrement stock 5),
succeeds, and drives the stock to −5. -/
theorem duplicate_lines_drive_stock_negative :
    (checkout oneProductState 10 duplicateLinesReq .delivered).response.isSuccess = true ∧
    findProduct (checkout oneProductState 10 duplicateLinesReq .delivered).state.products 1 =
      some { productId := 1, stockQuantity := -5, basePrice := 100 } := by
  decide

set_option maxRecDepth 2048 in
/-- **C5.** The code records the sentinel `paymentMethodId = 0` whenever
`paymentMethod` is not an object: a checkout paying with the existing
identifier 42 succeeds, the created order carries payment-method id 0 (not
42), and no payment-method row is created. -/
theorem existing_payment_id_recorded_as_zero :
    (checkout oneProductState 10 existingPaymentReq .delivered).response =
      .created 10 ∧
    findOrder (checkout oneProductState 10 existingPaymentReq .delivered).state 10 =
      some { orderId := 10, userId := 9, shippingAddressId := 3,
             billingAddressId := 3, paymentMethodId := 0, totalAmount := 226,
             status := "pending" } ∧
    (checkout oneProductState 10 existingPaymentReq .delivered).state.paymentMethods = [] := by
  have hcents : round2S (totalAmountFpS [(⟨1, 2, 100⟩ : LineRequest)]) = 22600 := by
    with_unfolding_all decide
  have hck : checkStock oneProductState.products [(⟨1, 2, 100⟩ : LineRequest)] =
      Except.ok () := rfl
  have hok := checkout_ok oneProductState 10 [(⟨1, 2, 100⟩ : LineRequest)] (.idRef 42)
    9 3 (some "x@y.com") .delivered oneProductState 0 10 rfl hck (by decide)
  refine ⟨?_, ?_, ?_⟩
  · show (checkout oneProductState 10
      { products := some [⟨1, 2, 100⟩], paymentMethod := .idRef 42, userId := some 9,
        addressId := some 3, email := some "x@y.com" } .delivered).response = .created 10
    rw [hok]
  · show findOrder (checkout oneProductState 10
      { products := some [⟨1, 2, 100⟩], paymentMethod := .idRef 42, userId := some 9,
        addressId := some 3, email := some "x@y.com" } .delivered).state 10 = _
    rw [hok]
    have hrow : mkOrder 10 9 3 0 [(⟨1, 2, 100⟩ : LineRequest)] =
        { orderId := 10, userId := 9, shippingAddressId := 3, billingAddressId := 3,
          paymentMethodId := 0, totalAmount := 226, status := "pending" } := by
      simp only [mkOrder, hcents, OrderRow.mk.injEq]
      norm_num
    rw [← hrow]
    simp [findOrder, oneProductState, List.find?, mkOrder]
  · show (checkout oneProductState 10
      { products := some [⟨1, 2, 100⟩], paymentMethod := .idRef 42, userId := some 9,
        addressId := some 3, email := some "x@y.com" } .delivered).state.paymentMethods = []
    rw [hok]
    rfl

/-- **C6.** The confirmation e-mail is sent inside `db.transaction`: when
the send throws on an otherwise fully valid checkout (steps 3 to 7 all
succeeded), every write is rolled back and the route answers 500, so a
notification failure is neither outside the transaction scope nor harmless
to the response. -/
theorem email_throw_rolls_back_checkout :
    (checkout oneProductState 10 inlineCardReq .threw).response =
      .serverError .emailThrew ∧
    (checkout oneProductState 10 inlineCardReq .threw).state = oneProductState ∧
    (checkout oneProductState 10 inlineCardReq .delivered).response.isSuccess = true := by
  decide

/-- **C8.** The decrement is not a conditional atomic operation: in the
read-committed interleaving where two concurrent checkouts, each requesting
1 unit of product 1 with stock 1, both run their check loop before either
decrement, both transactions succeed and the final stock is −1 — not
"exactly one succeeds and final stock 0". -/
theorem concurrent_checkouts_oversell :
    concurrentStockPhases [{ productId := 1, stockQuantity := 1, basePrice := 100 }]
        ⟨1, 1, 100⟩ ⟨1, 1, 100⟩ =
      (true, true, [{ productId := 1, stockQuantity := -1, basePrice := 100 }]) := by
  decide

/-- **C2 (amended).** Every successful checkout persists an order whose
`total_amount` is the `numeric(10,2)` rounding of the BINARY64 evaluation
of `totalPrice + totalPrice * 0.13` over the lines in input order: the 13%
tax is still applied once to the pre-tax subtotal and decimal rounding
still happens only at the total, but the arithmetic is IEEE-754 double,
not exact decimal, so the persisted cent can differ from
`round(Σ(price × qty) × 1.13, 2)` (see the counterexample). -/
theorem successful_checkout_total_amount_float (s : DBState) (gen : Nat)
    (lines : List LineRequest) (pm : PaymentMethodInput) (uid aid : Nat)
    (email : Option String) (em : EmailOutcome) (oid : Nat)
    (hne : lines ≠ [])
    (hfresh : ∀ o ∈ s.orders, o.orderId < gen)
    (h : (checkout s gen { products := some lines, paymentMethod := pm,
                           userId := some uid, addressId := some aid,
                           email := email } em).response = .created oid) :
    ∃ o, findOrder (checkout s gen { products := some lines, paymentMethod := pm,
                                     userId := some uid, addressId := some aid,
                                     email := email } em).state oid = some o ∧
      o.totalAmount = (round2S (totalAmountFpS lines) : Rat) / 100 := by
  obtain ⟨hchk, hem, hoid⟩ := checkout_created_inv s gen lines pm uid aid email em oid h
  rcases hps : paymentStep s gen pm uid with ⟨s1, pmId, g1⟩
  rw [hps] at hoid
  simp only at hoid
  subst hoid
  have hsp : s1.products = s.products := by
    have hh := paymentStep_products s gen pm uid
    rw [hps] at hh
    exact hh
  have hso : s1.orders = s.orders := by
    have hh := paymentStep_orders s gen pm uid
    rw [hps] at hh
    exact hh
  have hge : gen ≤ oid := by
    have hh := paymentStep_gen_le s gen pm uid
    rw [hps] at hh
    exact hh
  rw [checkout_ok s gen lines pm uid aid email em s1 pmId oid hps
    (by rw [hsp]; exact hchk) hem]
  refine ⟨mkOrder oid uid aid pmId lines, ?_, rfl⟩
  show (s1.orders ++ [mkOrder oid uid aid pmId lines]).find? (fun o => o.orderId == oid) = _
  rw [find?_append_of_none _ _ _ (fun o ho => ?_)]
  · simp [List.find?, mkOrder]
  · rw [hso] at ho
    exact beq_eq_false_iff_ne.mpr (Nat.ne_of_lt (lt_of_lt_of_le (hfresh o ho) hge))

set_option maxRecDepth 2048 in
/-- Witness for the amended C2 at the spec's own example: 5 units at
100.00; the binary64 total is exactly 565 and the order stores 565.00. -/
theorem successful_checkout_total_amount_float_witness :
    (([(⟨1, 5, 100⟩ : LineRequest)] : List LineRequest) ≠ []) ∧
    (∀ o ∈ oneProductState.orders, o.orderId < 10) ∧
    ((checkout oneProductState 10
        { products := some [⟨1, 5, 100⟩],
          paymentMethod := .card "Visa" "1234" "Alice" "12/27",
          userId := some 9, addressId := some 3,
          email := some "x@y.com" } .delivered).response = .created 11) ∧
    (round2S (totalAmountFpS [⟨1, 5, 100⟩]) = 56500) ∧
    (∃ o, findOrder (checkout oneProductState 10
        { products := some [⟨1, 5, 100⟩],
          paymentMethod := .card "Visa" "1234" "Alice" "12/27",
          userId := some 9, addressId := some 3,
          email := some "x@y.com" } .delivered).state 11 = some o ∧
      o.totalAmount = (round2S (totalAmountFpS [⟨1, 5, 100⟩]) : Rat) / 100) :=
  ⟨by decide, by decide, by with_unfolding_all decide,
   by with_unfolding_all decide,
   successful_checkout_total_amount_float oneProductState 10 [⟨1, 5, 100⟩]
     (.card "Visa" "1234" "Alice" "12/27") 9 3 (some "x@y.com") .delivered 11
     (by decide) (by decide) (by with_unfolding_all decide)⟩

set_option maxRecDepth 2048 in
/-- **C2 (counterexample).** The claim `total_amount =
round(Σ(price × qty) × 1.13, 2)` fails on the program at the cart
`[436.06 × 2, 646.86 × 5, 396.90 × 7, 393.78 × 1]` (exact subtotal
7278.50): the checkout succeeds, the program's binary64 arithmetic yields
7278.499999999999 + 946.2049999999999 = 8224.704999999998 and persists
8224.70, while the exact formula gives round(8224.705, 2) = 8224.71. -/
theorem checkout_total_amount_float_counterexample :
    (checkout ceState 10 ceReq .delivered).response = .created 10 ∧
    (∃ o, findOrder (checkout ceState 10 ceReq .delivered).state 10 = some o ∧
       o.totalAmount = (822470 : Rat) / 100) ∧
    specTotalAmount ceLines = (822471 : Rat) / 100 ∧
    ¬((822470 : Rat) / 100 = (822471 : Rat) / 100) := by
  have hcents : round2S (totalAmountFpS ceLines) = 822470 := by
    with_unfolding_all decide
  have hck : checkStock ceState.products ceLines = Except.ok () := rfl
  have hok := checkout_ok ceState 10 ceLines (.idRef 42) 9 3 (some "x@y.com")
    .delivered ceState 0 10 rfl hck (by decide)
  have hsub : (ceLines.map (fun l => l.basePrice * (l.quantity : Rat))).sum * (113 / 100) =
      (1644941 : Rat) / 200 := by
    simp only [ceLines, List.map_cons, List.map_nil, List.sum_cons, List.sum_nil]
    push_cast
    norm_num
  have hround : roundHalfAway ((1644941 : Rat) / 2) = 822471 := by
    with_unfolding_all decide
  have hspec : specTotalAmount ceLines = (822471 : Rat) / 100 := by
    simp only [specTotalAmount, round2, hsub]
    have h2 : (1644941 : Rat) / 200 * 100 = (1644941 : Rat) / 2 := by norm_num
    rw [h2, hround]
    norm_num
  refine ⟨?_, ?_, hspec, by norm_num⟩
  · show (checkout ceState 10
      { products := some ceLines, paymentMethod := .idRef 42, userId := some 9,
        addressId := some 3, email := some "x@y.com" } .delivered).response = .created 10
    rw [hok]
  · refine ⟨mkOrder 10 9 3 0 ceLines, ?_, ?_⟩
    · show findOrder (checkout ceState 10
        { products := some ceLines, paymentMethod := .idRef 42, userId := some 9,
          addressId := some 3, email := some "x@y.com" } .delivered).state 10 = _
      rw [hok]
      simp [findOrder, ceState, List.find?, mkOrder]
    · show (round2S (totalAmountFpS ceLines) : Rat) / 100 = (822470 : Rat) / 100
      rw [hcents]
      norm_num

/-- **C3.** A checkout in which some requested line exceeds its product's
current stock (all requested products existing, as the workflow contract
assumes) is aborted with no persisted side effects, it fails with the
insufficient-stock error naming a product, and the product named is the one
of the first insufficient line in input order; the 500 message string
identifies that product. -/
theorem insufficient_stock_aborts_first_reported (s : DBState) (gen : Nat)
    (lines : List LineRequest) (pm : PaymentMethodInput) (uid aid : Nat)
    (email : Option String) (em : EmailOutcome) (pid : Nat)
    (hall : ∀ l ∈ lines, (findProduct s.products l.productId).isSome)
    (hfi : firstInsufficient s.products lines = some pid) :
    (checkout s gen { products := some lines, paymentMethod := pm,
                      userId := some uid, addressId := some aid,
                      email := email } em).response =
      .serverError (.insufficientStock pid) ∧
    (checkout s gen { products := some lines, paymentMethod := pm,
                      userId := some uid, addressId := some aid,
                      email := email } em).state = s ∧
    errMessage (.insufficientStock pid) =
      "Insufficient stock for product ID " ++ toString pid := by
  have hchk : checkStock s.products lines = .error (.insufficientStock pid) := by
    rw [checkStock_eq_firstInsufficient s.products lines hall, hfi]
  have hchk1 : checkStock (paymentStep s gen pm uid).1.products lines =
      .error (.insufficientStock pid) := by
    rw [paymentStep_products]
    exact hchk
  refine ⟨?_, ?_, rfl⟩ <;>
    simp only [checkout, transactionBody] <;> rw [hchk1]

/-- Witness for C3: lines 1 and 2 are both insufficient (stock 1 against
quantity 5, stock 0 against quantity 3); the failure names product 1, the
first in input order, and the store is unchanged. -/
theorem insufficient_stock_aborts_first_reported_witness :
    (∀ l ∈ [(⟨1, 5, 50⟩ : LineRequest), ⟨2, 3, 30⟩],
      (findProduct [{ productId := 1, stockQuantity := 1, basePrice := 50 },
                    { productId := 2, stockQuantity := 0, basePrice := 30 }]
        l.productId).isSome) ∧
    (firstInsufficient [{ productId := 1, stockQuantity := 1, basePrice := 50 },
                        { productId := 2, stockQuantity := 0, basePrice := 30 }]
        [⟨1, 5, 50⟩, ⟨2, 3, 30⟩] = some 1) ∧
    ((checkout { products := [{ productId := 1, stockQuantity := 1, basePrice := 50 },
                              { productId := 2, stockQuantity := 0, basePrice := 30 }],
                 orders := [], orderItems := [], paymentMethods := [] } 10
        { products := some [⟨1, 5, 50⟩, ⟨2, 3, 30⟩], paymentMethod := .idRef 42,
          userId := some 9, addressId := some 3,
          email := some "x@y.com" } .delivered).response =
        .serverError (.insufficientStock 1) ∧
      (checkout { products := [{ productId := 1, stockQuantity := 1, basePrice := 50 },
                               { productId := 2, stockQuantity := 0, basePrice := 30 }],
                  orders := [], orderItems := [], paymentMethods := [] } 10
        { products := some [⟨1, 5, 50⟩, ⟨2, 3, 30⟩], paymentMethod := .idRef 42,
          userId := some 9, addressId := some 3,
          email := some "x@y.com" } .delivered).state =
        { products := [{ productId := 1, stockQuantity := 1, basePrice := 50 },
                       { productId := 2, stockQuantity := 0, basePrice := 30 }],
          orders := [], orderItems := [], paymentMethods := [] } ∧
      errMessage (.insufficientStock 1) =
        "Insufficient stock for product ID " ++ toString 1) :=
  ⟨by decide, by decide,
   insufficient_stock_aborts_first_reported
     { products := [{ productId := 1, stockQuantity := 1, basePrice := 50 },
                    { productId := 2, stockQuantity := 0, basePrice := 30 }],
       orders := [], orderItems := [], paymentMethods := [] } 10
     [⟨1, 5, 50⟩, ⟨2, 3, 30⟩] (.idRef 42) 9 3 (some "x@y.com") .delivered 1
     (by decide) (by decide)⟩

/-- **C7.** A successful checkout creates exactly one order row under the
returned id, with status `pending`, and exactly one order-item row per
requested line in input order, snapshotting the caller-supplied unit price
and a subtotal equal to unit price × quantity (prices being whole numbers
of cents, as the data model declares); fetching by the returned id
therefore yields item count equal to the number of lines and status
`pending`. -/
theorem successful_checkout_order_and_items (s : DBState) (gen : Nat)
    (lines : List LineRequest) (pm : PaymentMethodInput) (uid aid : Nat)
    (email : Option String) (em : EmailOutcome) (oid : Nat)
    (hfreshO : ∀ o ∈ s.orders, o.orderId < gen)
    (hfreshI : ∀ it ∈ s.orderItems, it.orderId < gen)
    (hmoney : ∀ l ∈ lines, (l.basePrice * 100).den = 1)
    (h : (checkout s gen { products := some lines, paymentMethod := pm,
                           userId := some uid, addressId := some aid,
                           email := email } em).response = .created oid) :
    (((checkout s gen { products := some lines, paymentMethod := pm,
                        userId := some uid, addressId := some aid,
                        email := email } em).state.orders.filter
        (fun o => o.orderId == oid)).map (fun o => o.status) = ["pending"]) ∧
    (((checkout s gen { products := some lines, paymentMethod := pm,
                        userId := some uid, addressId := some aid,
                        email := email } em).state.orderItems.filter
        (fun it => it.orderId == oid)).length = lines.length) ∧
    (((checkout s gen { products := some lines, paymentMethod := pm,
                        userId := some uid, addressId := some aid,
                        email := email } em).state.orderItems.filter
        (fun it => it.orderId == oid)).map
          (fun it => (it.productId, it.quantity, it.unitPrice, it.subtotal)) =
      lines.map (fun l => (l.productId, l.quantity, l.basePrice,
        l.basePrice * (l.quantity : Rat)))) := by
  obtain ⟨hchk, hem, hoid⟩ := checkout_created_inv s gen lines pm uid aid email em oid h
  rcases hps : paymentStep s gen pm uid with ⟨s1, pmId, g1⟩
  rw [hps] at hoid
  simp only at hoid
  subst hoid
  have hsp : s1.products = s.products := by
    have hh := paymentStep_products s gen pm uid
    rw [hps] at hh
    exact hh
  have hso : s1.orders = s.orders := by
    have hh := paymentStep_orders s gen pm uid
    rw [hps] at hh
    exact hh
  have hsi : s1.orderItems = s.orderItems := by
    have hh := paymentStep_orderItems s gen pm uid
    rw [hps] at hh
    exact hh
  have hge : gen ≤ oid := by
    have hh := paymentStep_gen_le s gen pm uid
    rw [hps] at hh
    exact hh
  rw [checkout_ok s gen lines pm uid aid email em s1 pmId oid hps
    (by rw [hsp]; exact hchk) hem]
  have holdO : s1.orders.filter (fun o => o.orderId == oid) = [] := by
    refine filter_eq_nil_of_none _ _ (fun o ho => ?_)
    rw [hso] at ho
    exact beq_eq_false_iff_ne.mpr (Nat.ne_of_lt (lt_of_lt_of_le (hfreshO o ho) hge))
  have holdI : s1.orderItems.filter (fun it => it.orderId == oid) = [] := by
    refine filter_eq_nil_of_none _ _ (fun it hit => ?_)
    rw [hsi] at hit
    exact beq_eq_false_iff_ne.mpr (Nat.ne_of_lt (lt_of_lt_of_le (hfreshI it hit) hge))
  refine ⟨?_, ?_, ?_⟩
  · show ((s1.orders ++ [mkOrder oid uid aid pmId lines]).filter
      (fun o => o.orderId == oid)).map (fun o => o.status) = ["pending"]
    rw [List.filter_append, holdO]
    simp [List.filter, mkOrder]
  · show ((s1.orderItems ++ mkItems (oid + 1) oid lines).filter
      (fun it => it.orderId == oid)).length = lines.length
    rw [List.filter_append, holdI, mkItems_filter]
    simpa using mkItems_length (oid + 1) oid lines
  · show ((s1.orderItems ++ mkItems (oid + 1) oid lines).filter
      (fun it => it.orderId == oid)).map
        (fun it => (it.productId, it.quantity, it.unitPrice, it.subtotal)) = _
    rw [List.filter_append, holdI, mkItems_filter]
    simp only [List.nil_append]
    rw [mkItems_map]
    refine List.map_congr_left (fun l hl => ?_)
    rw [round2_den_one l.basePrice (hmoney l hl),
      round2_den_one _ (money_mul_qty_den l.basePrice l.quantity (hmoney l hl))]

/-- Witness for C7: one line of 2 units at 100.00; the created order 11 has
status pending and exactly one item row with unit price 100 and subtotal
200. -/
theorem successful_checkout_order_and_items_witness :
    (∀ l ∈ [(⟨1, 2, 100⟩ : LineRequest)], (l.basePrice * 100).den = 1) ∧
    ((checkout oneProductState 10 inlineCardReq .delivered).response = .created 11) ∧
    ((((checkout oneProductState 10 inlineCardReq .delivered).state.orders.filter
        (fun o => o.orderId == 11)).map (fun o => o.status) = ["pending"]) ∧
      (((checkout oneProductState 10 inlineCardReq .delivered).state.orderItems.filter
        (fun it => it.orderId == 11)).length = [(⟨1, 2, 100⟩ : LineRequest)].length) ∧
      (((checkout oneProductState 10 inlineCardReq .delivered).state.orderItems.filter
        (fun it => it.orderId == 11)).map
          (fun it => (it.productId, it.quantity, it.unitPrice, it.subtotal)) =
        [(⟨1, 2, 100⟩ : LineRequest)].map (fun l => (l.productId, l.quantity, l.basePrice,
          l.basePrice * (l.quantity : Rat))))) :=
  ⟨by with_unfolding_all decide, by with_unfolding_all decide,
   successful_checkout_order_and_items oneProductState 10 [⟨1, 2, 100⟩]
     (.card "Visa" "1234" "Alice" "12/27") 9 3 (some "x@y.com") .delivered 11
     (by decide) (by decide) (by with_unfolding_all decide)
     (by with_unfolding_all decide)⟩

/-- **C10.** The checkout never validates that quantities are positive: a
request containing a line with quantity ≤ 0 that passes the required-field
and stock checks succeeds, creates an order item carrying that non-positive
quantity, and each product's stock moves by minus the total requested
quantity over its lines — so a lone negative line INCREASES the product's
stock by the absolute value of its quantity. -/
theorem nonpositive_quantity_accepted (s : DBState) (gen : Nat)
    (lines : List LineRequest) (pm : PaymentMethodInput) (uid aid : Nat)
    (email : Option String) (em : EmailOutcome) (l : LineRequest)
    (hmem : l ∈ lines) (hnp : l.quantity ≤ 0)
    (hchk : checkStock s.products lines = Except.ok ())
    (hem : em ≠ EmailOutcome.threw) :
    ((checkout s gen { products := some lines, paymentMethod := pm,
                       userId := some uid, addressId := some aid,
                       email := email } em).response.isSuccess = true) ∧
    (∃ it ∈ (checkout s gen { products := some lines, paymentMethod := pm,
                              userId := some uid, addressId := some aid,
                              email := email } em).state.orderItems,
       it.productId = l.productId ∧ it.quantity = l.quantity) ∧
    (∀ p, findProduct s.products l.productId = some p →
       findProduct (checkout s gen { products := some lines, paymentMethod := pm,
                                     userId := some uid, addressId := some aid,
                                     email := email } em).state.products l.productId =
         some { p with stockQuantity :=
                  p.stockQuantity - requestedQty lines l.productId }) := by
  rcases hps : paymentStep s gen pm uid with ⟨s1, pmId, g1⟩
  have hsp : s1.products = s.products := by
    have hh := paymentStep_products s gen pm uid
    rw [hps] at hh
    exact hh
  rw [checkout_ok s gen lines pm uid aid email em s1 pmId g1 hps
    (by rw [hsp]; exact hchk) hem]
  refine ⟨rfl, ?_, ?_⟩
  · obtain ⟨it, h1, h2⟩ := mkItems_mem (g1 + 1) g1 lines l hmem
    exact ⟨it, by simp [h1], h2⟩
  · intro p hp
    show findProduct (decrementAll s1.products lines) l.productId = _
    rw [findProduct_decrementAll, hsp, hp]
    rfl

/-- Witness for C10: a single line of quantity −3 for product 1 (stock 5)
passes all checks, the order item stores quantity −3, and the stock rises
to 8 = 5 + |−3|. -/
theorem nonpositive_quantity_accepted_witness :
    ((⟨1, -3, 100⟩ : LineRequest) ∈ [(⟨1, -3, 100⟩ : LineRequest)]) ∧
    ((⟨1, -3, 100⟩ : LineRequest).quantity ≤ 0) ∧
    (checkStock oneProductState.products [(⟨1, -3, 100⟩ : LineRequest)] = Except.ok ()) ∧
    (((checkout oneProductState 10 negativeQtyReq .delivered).response.isSuccess = true) ∧
      (∃ it ∈ (checkout oneProductState 10 negativeQtyReq .delivered).state.orderItems,
         it.productId = 1 ∧ it.quantity = -3) ∧
      (∀ p, findProduct oneProductState.products 1 = some p →
         findProduct (checkout oneProductState 10 negativeQtyReq
             .delivered).state.products 1 =
           some { p with stockQuantity :=
                    p.stockQuantity - requestedQty [(⟨1, -3, 100⟩ : LineRequest)] 1 })) ∧
    (findProduct (checkout oneProductState 10 negativeQtyReq .delivered).state.products 1 =
      some { productId := 1, stockQuantity := 8, basePrice := 100 }) :=
  ⟨by decide, by decide, rfl,
   nonpositive_quantity_accepted oneProductState 10 [⟨1, -3, 100⟩] (.idRef 42)
     9 3 (some "x@y.com") .delivered ⟨1, -3, 100⟩
     (by decide) (by decide) rfl (by decide),
   by decide⟩

end Backend
